import Mathlib

/-!
Verification development for the gnomAD GraphQL client.

Shallow embedding of the version-aware query dispatcher (`gnomad/query.py`),
the tool facade (`server.py`), the type-graph walker
(`gnomad/schemas/schema_analyzer.py`) and the query synthesizer
(`gnomad/schema2query.py`).  Python dictionaries become association lists,
Python sets become lists threaded through the recursion as explicit state,
exceptions become an `Except` error type, and the HTTP transport plus the
on-disk query-document store become an explicit environment record.
-/

set_option maxHeartbeats 1000000

namespace Gnomad

/-- A Python value as it occurs in variable dictionaries and JSON responses:
strings, integers, `None`, dictionaries and lists. -/
inductive PyVal where
  | str (s : String)
  | int (n : Int)
  | none
  | dict (entries : List (String × PyVal))
  | list (elems : List PyVal)
deriving Repr

/-- Structural decidable equality for `PyVal` (nested inductive, so we
write the recursion by hand as a boolean test first). -/
def PyVal.beq : PyVal → PyVal → Bool
  | .str a, .str b => a == b
  | .int a, .int b => a == b
  | .none, .none => true
  | .dict a, .dict b =>
      let rec beqEntries : List (String × PyVal) → List (String × PyVal) → Bool
        | [], [] => true
        | (k1, v1) :: t1, (k2, v2) :: t2 => k1 == k2 && PyVal.beq v1 v2 && beqEntries t1 t2
        | _, _ => false
      beqEntries a b
  | .list a, .list b =>
      let rec beqElems : List PyVal → List PyVal → Bool
        | [], [] => true
        | v1 :: t1, v2 :: t2 => PyVal.beq v1 v2 && beqElems t1 t2
        | _, _ => false
      beqElems a b
  | _, _ => false

/-- Python truthiness: `None`, the empty string, zero, and empty
containers are falsy, everything else is truthy. -/
def PyVal.truthy : PyVal → Bool
  | .str s => !s.isEmpty
  | .int n => n != 0
  | .none => false
  | .dict l => !l.isEmpty
  | .list l => !l.isEmpty

/-- String rendering of a `PyVal` as Python `str()` produces it inside an
f-string (scalars only; containers do not occur in the rendered messages). -/
def PyVal.toPyString : PyVal → String
  | .str s => s
  | .int n => toString n
  | .none => "None"
  | .dict _ => "dict"
  | .list _ => "list"

/-- A single ASCII apostrophe, as used by Python `repr` of strings. -/
def sq : String := String.singleton (Char.ofNat 39)

/-- Python `repr()` of a `PyVal`, as used by `str(KeyError(k))`. -/
def PyVal.toPyRepr : PyVal → String
  | .str s => sq ++ s ++ sq
  | .int n => toString n
  | .none => "None"
  | .dict _ => "dict"
  | .list _ => "list"

/-- A raised Python exception: `ValueError`, `KeyError`, or anything else. -/
inductive Exc where
  | valueError (msg : String)
  | keyError (key : PyVal)
  | other (msg : String)
deriving Repr

/-- Python `str(e)` of an exception: the message for `ValueError`, the
`repr` of the missing key for `KeyError`. -/
def Exc.message : Exc → String
  | .valueError msg => msg
  | .keyError k => k.toPyRepr
  | .other msg => msg

/-- A vars dictionary, in insertion order (Python `dict`). -/
abbrev VarMap := List (String × PyVal)

/-- `vars.get(key)` on a Python dict. -/
def varGet (vars : VarMap) (key : String) : Option PyVal :=
  vars.lookup key

/-- `vars.get(key)` followed by a truthiness test: returns the value
only when it is present and truthy (the pattern `x = d.get(k); if not x:`). -/
def truthyGet (vars : VarMap) (key : String) : Option PyVal :=
  match varGet vars key with
  | some v => if v.truthy then some v else Option.none
  | Option.none => Option.none

/-- Lookup of a possibly non-string Python value in a string-keyed dict:
only a string value can match a key (`d[k]`, hashable scalars). -/
def pyStrKeyLookup (table : List (String × String)) (key : PyVal) : Option String :=
  match key with
  | .str s => table.lookup s
  | _ => Option.none

/-! ## gnomad/query.py : constants -/

/-- `GNOMAD_API_URL` from `gnomad/query.py`. -/
def GNOMAD_API_URL : String := "https://gnomad.broadinstitute.org/api"

/-- `DATASET_MAP` from `gnomad/query.py`: per-version default dataset. -/
def DATASET_MAP : List (String × String) :=
  [("v2", "gnomad_r2_1"), ("v3", "gnomad_r3"), ("v4", "gnomad_r4")]

/-- `ALL_DATASET_TO_VERSION` from `gnomad/query.py`. -/
def ALL_DATASET_TO_VERSION : List (String × String) :=
  [ ("gnomad_r2_1", "v2")
  , ("gnomad_sv_r2_1", "v2")
  , ("gnomad_r3", "v3")
  , ("gnomad_r4", "v4")
  , ("gnomad_sv_r4", "v4")
  , ("gnomad_cnv_r4", "v4") ]

/-- `REF_GENOME_MAP` from `gnomad/query.py`, in insertion order (dict
iteration order is significant for `detect_version`). -/
def REF_GENOME_MAP : List (String × String) :=
  [("v2", "GRCh37"), ("v3", "GRCh38"), ("v4", "GRCh38")]

/-! ## gnomad/queries/{v2,v3,v4}.py : supported query lists -/

namespace v2
/-- `SUPPORTED_QUERIES` from `gnomad/queries/v2.py`. -/
def SUPPORTED_QUERIES : List String :=
  ["variant", "clinvar_variant", "structural_variant", "gene_search",
   "variant_search", "liftover", "meta"]
end v2

namespace v3
/-- `SUPPORTED_QUERIES` from `gnomad/queries/v3.py`. -/
def SUPPORTED_QUERIES : List String :=
  ["variant", "clinvar_variant", "gene_search", "variant_search", "meta"]
end v3

namespace v4
/-- `SUPPORTED_QUERIES` from `gnomad/queries/v4.py`. -/
def SUPPORTED_QUERIES : List String :=
  ["gene", "region", "variant", "clinvar_variant", "mitochondrial_variant",
   "structural_variant", "copy_number_variant", "gene_search",
   "variant_search", "short_tandem_repeat", "meta"]
end v4

/-! ## gnomad/query.py : detect_version -/

/-- The message of the `ValueError` raised by `detect_version`. -/
def cannotDetectMsg (dataset reference_genome : Option PyVal) : String :=
  "Cannot detect version for dataset=" ++
    (match dataset with | some v => v.toPyString | Option.none => "None") ++
    ", reference_genome=" ++
    (match reference_genome with | some v => v.toPyString | Option.none => "None")

/-- The reference-genome loop of `detect_version`: iterate `REF_GENOME_MAP`
in declaration order, returning the first version whose genome equals the
(truthy) supplied reference genome. -/
def refGenomeScan (reference_genome : Option PyVal) : List (String × String) → Option String
  | [] => Option.none
  | (ver, rg) :: rest =>
      match reference_genome with
      | some r => if r.truthy && PyVal.beq r (.str rg) then some ver else refGenomeScan reference_genome rest
      | Option.none => refGenomeScan Option.none rest

/-- `detect_version` from `gnomad/query.py` (lines 104-127): a truthy
dataset found in `ALL_DATASET_TO_VERSION` wins; otherwise the reference
genome is matched against `REF_GENOME_MAP` in declaration order; otherwise
a `ValueError` is raised. -/
def detect_version (dataset reference_genome : Option PyVal) : Except Exc String :=
  match dataset with
  | some d =>
      if d.truthy then
        match pyStrKeyLookup ALL_DATASET_TO_VERSION d with
        | some v => .ok v
        | Option.none =>
            match refGenomeScan reference_genome REF_GENOME_MAP with
            | some v => .ok v
            | Option.none => .error (.valueError (cannotDetectMsg dataset reference_genome))
      else
        match refGenomeScan reference_genome REF_GENOME_MAP with
        | some v => .ok v
        | Option.none => .error (.valueError (cannotDetectMsg dataset reference_genome))
  | Option.none =>
      match refGenomeScan reference_genome REF_GENOME_MAP with
      | some v => .ok v
      | Option.none => .error (.valueError (cannotDetectMsg dataset reference_genome))

/-! ## gnomad/query.py : run_query -/

/-- The environment a dispatch runs against: the query-document store
(keyed by path) and the GraphQL transport collaborator. -/
structure Env where
  files : String → Option String
  execute : String → VarMap → Except Exc PyVal

/-- A soft error dictionary `\x7b"error": msg\x7d` as returned by `run_query`. -/
def errDict (msg : String) : PyVal := .dict [("error", .str msg)]

/-- Step 1 of `run_query` (lines 148-153): `version = vars.get('version')`;
if falsy, detect it, converting a `ValueError` into the soft error dict.
`Sum.inl` is the early `return` of the soft error, `Sum.inr` the version. -/
def resolveVersionVar (vars : VarMap) : PyVal ⊕ PyVal :=
  match truthyGet vars "version" with
  | some v => .inr v
  | Option.none =>
      match detect_version (varGet vars "dataset") (varGet vars "reference_genome") with
      | .ok v => .inr (.str v)
      | .error _ => .inl (errDict "Cannot determine version from dataset/reference_genome/version.")

/-- Step 2 of `run_query` (lines 155-160): backfill `dataset` from
`DATASET_MAP[version]` when absent or falsy.  An unknown version raises
`KeyError`, which the surrounding `except ValueError` cannot catch. -/
def resolveDatasetVar (vars : VarMap) (version : PyVal) : Except Exc PyVal :=
  match truthyGet vars "dataset" with
  | some d => .ok d
  | Option.none =>
      match pyStrKeyLookup DATASET_MAP version with
      | some d => .ok (.str d)
      | Option.none => .error (.keyError version)

/-- Step 3 of `run_query` (lines 162-167): backfill `reference_genome`
from `REF_GENOME_MAP[version]` when absent or falsy; unknown version
raises `KeyError` exactly as in the dataset step. -/
def resolveGenomeVar (vars : VarMap) (version : PyVal) : Except Exc PyVal :=
  match truthyGet vars "reference_genome" with
  | some r => .ok r
  | Option.none =>
      match pyStrKeyLookup REF_GENOME_MAP version with
      | some r => .ok (.str r)
      | Option.none => .error (.keyError version)

/-- The `if version == "v2" ... elif ... elif ...` dispatch of `run_query`
(lines 170-177): the recognised version string, if any. -/
def versionBranch (version : PyVal) : Option String :=
  if PyVal.beq version (.str "v2") then some "v2"
  else if PyVal.beq version (.str "v3") then some "v3"
  else if PyVal.beq version (.str "v4") then some "v4"
  else Option.none

/-- The per-version `SUPPORTED_QUERIES` module constant selected by the
version branch of `run_query`. -/
def supportedQueriesFor (vstr : String) : List String :=
  if vstr = "v2" then v2.SUPPORTED_QUERIES
  else if vstr = "v3" then v3.SUPPORTED_QUERIES
  else v4.SUPPORTED_QUERIES

/-- Python `repr` of a list of strings, as interpolated into the
unsupported-query message. -/
def pyListRepr (l : List String) : String :=
  "[" ++ String.intercalate ", " (l.map fun s => sq ++ s ++ sq) ++ "]"

/-- The `ValueError` message for an unsupported query (line 179). -/
def unsupportedMsg (query_name vstr : String) (supported : List String) : String :=
  "Query " ++ sq ++ query_name ++ sq ++ " is not supported in gnomAD " ++ vstr ++
    " (supported: " ++ pyListRepr supported ++ ")"

/-- The `ValueError` message for the consistency check (line 184). -/
def inconsistentMsg (version : PyVal) (expected : String) : String :=
  "Inconsistent version: got " ++ version.toPyString ++ ", expected " ++ expected

/-- The query-document path `gnomad/queries/<version>/<query_name>.graphql`. -/
def queryPath (vstr query_name : String) : String :=
  "gnomad/queries/" ++ vstr ++ "/" ++ query_name ++ ".graphql"

/-- `run_query` from `gnomad/query.py` (lines 129-191): resolve the
version, backfill dataset and reference genome into local vars,
validate query support, re-check consistency, load the query document and
execute it.  Note that line 191 hands the ORIGINAL `vars` dict to
`execute_query_sync`, not the completed local values. -/
def run_query (env : Env) (query_name : String) (vars : VarMap) : Except Exc PyVal :=
  match resolveVersionVar vars with
  | .inl soft => .ok soft
  | .inr version =>
  match resolveDatasetVar vars version with
  | .error e => .error e
  | .ok dataset =>
  match resolveGenomeVar vars version with
  | .error e => .error e
  | .ok reference_genome =>
  match versionBranch version with
  | Option.none => .error (.valueError ("Unknown gnomAD version: " ++ version.toPyString))
  | some vstr =>
  let supported := supportedQueriesFor vstr
  if query_name ∈ supported then
    match detect_version (some dataset) (some reference_genome) with
    | .error e => .error e
    | .ok detected =>
      if PyVal.beq version (.str detected) then
        match env.files (queryPath vstr query_name) with
        | Option.none => .error (.valueError ("Query file not found: " ++ queryPath vstr query_name))
        | some query_str => env.execute query_str vars
      else .error (.valueError (inconsistentMsg version detected))
  else .error (.valueError (unsupportedMsg query_name vstr supported))

/-! ## gnomad/query.py : run_query_with_metadata -/

/-- The result envelope of `run_query_with_metadata`. -/
structure Envelope where
  endpoint : String
  request_query : String
  request_variables : VarMap
  response : PyVal
deriving Repr

/-- `run_query_with_metadata` from `gnomad/query.py` (lines 193-214):
copy the vars, run the query, catch every exception into an
`\x7b"error": str(e)\x7d` response, and return the envelope.  A total
function: it never raises. -/
def run_query_with_metadata (env : Env) (query_name : String) (vars : VarMap) : Envelope :=
  let request_variables := vars
  let response :=
    match run_query env query_name vars with
    | .ok r => r
    | .error e => errDict e.message
  { endpoint := GNOMAD_API_URL
  , request_query := query_name
  , request_variables := request_variables
  , response := response }

/-! ## server.py : get_variant_liftover (tool facade) -/

/-- Python truthiness of an `Optional[str]` parameter: present and non-empty. -/
def optStrTruthy : Option String → Bool
  | some s => !s.isEmpty
  | Option.none => false

/-- An `Optional[str]` parameter as it is stored into the vars dict
(`None` stays `None`). -/
def optStrPy : Option String → PyVal
  | some s => .str s
  | Option.none => .none

/-- `get_variant_liftover` from `server.py` (lines 278-318): validate the
dataset restriction, the mutual exclusion of the two identifier fields and
the build cross-check, then delegate to `run_query_with_metadata`.
`Except.error` is a raised `ValueError`; `Except.ok` is the returned
envelope. -/
def get_variant_liftover (env : Env) (reference_genome : String)
    (source_variant_id liftover_variant_id : Option String)
    (dataset : String := "gnomad_r2_1") : Except Exc Envelope :=
  if dataset ≠ "gnomad_r2_1" then
    .error (.valueError "Only v2 is supported for liftover.")
  else if optStrTruthy source_variant_id && optStrTruthy liftover_variant_id then
    .error (.valueError "Only one of source_variant_id or liftover_variant_id must be provided.")
  else if optStrTruthy source_variant_id then
    if reference_genome ≠ "GRCh37" then
      .error (.valueError "Source variant ID must be on GRCh37.")
    else
      .ok (run_query_with_metadata env "liftover"
        [ ("dataset", .str dataset)
        , ("reference_genome", .str reference_genome)
        , ("source_variant_id", optStrPy source_variant_id)
        , ("liftover_variant_id", optStrPy liftover_variant_id) ])
  else if optStrTruthy liftover_variant_id then
    if reference_genome ≠ "GRCh38" then
      .error (.valueError "Lifted over variant ID must be on GRCh38.")
    else
      .ok (run_query_with_metadata env "liftover"
        [ ("dataset", .str dataset)
        , ("reference_genome", .str reference_genome)
        , ("source_variant_id", optStrPy source_variant_id)
        , ("liftover_variant_id", optStrPy liftover_variant_id) ])
  else
    .error (.valueError "Either source_variant_id or liftover_variant_id must be provided.")

/-! ## Introspection type descriptors (shared JSON shape)

A GraphQL introspection type reference: a JSON object with optional
`kind`, `name` and `ofType` entries.  `Option.none` models an absent key
or a JSON `null`. -/

/-- A type reference from the introspection document. -/
inductive TypeRef where
  | mk (kind : Option String) (name : Option String) (ofType : Option TypeRef)
deriving Repr

/-- `kind` accessor (`type_info.get("kind")`). -/
def TypeRef.kind : TypeRef → Option String
  | .mk k _ _ => k

/-- `name` accessor. -/
def TypeRef.name : TypeRef → Option String
  | .mk _ n _ => n

/-- `ofType` accessor. -/
def TypeRef.ofType : TypeRef → Option TypeRef
  | .mk _ _ t => t

/-- A declared argument of a field or query (`\x7b"name": ..., "type": ...\x7d`). -/
structure GArg where
  name : String
  type : TypeRef
deriving Repr

/-- A field of an introspected composite type. -/
structure GField where
  name : String
  type : TypeRef
  description : String
  args : List GArg
deriving Repr

/-- An introspected type definition: its name and (possibly missing or
null) field list. -/
structure TypeDef where
  name : String
  fields : Option (List GField)
deriving Repr

/-! ## gnomad/schema2query.py : query synthesizer -/

/-- `type_to_gql` from `gnomad/schema2query.py` (lines 22-31): render a
type reference in GraphQL syntax.  `Option.none` models the
`AttributeError` crash on `type_to_gql(None)` when a `NON_NULL` or `LIST`
wrapper has no `ofType`. -/
def type_to_gql : TypeRef → Option String
  | .mk kind name ofType =>
    if kind = some "NON_NULL" then
      match ofType with
      | some t => (type_to_gql t).map (fun s => s ++ "!")
      | Option.none => Option.none
    else if kind = some "LIST" then
      match ofType with
      | some t => (type_to_gql t).map (fun s => "[" ++ s ++ "]")
      | Option.none => Option.none
    else
      match name with
      | some n =>
          if n ≠ "" then some n
          else some (match kind with
            | some k => if k ≠ "" then k else "Unknown"
            | Option.none => "Unknown")
      | Option.none => some (match kind with
          | some k => if k ≠ "" then k else "Unknown"
          | Option.none => "Unknown")

/-- `build_args` from `gnomad/schema2query.py` (lines 12-15): the
parameter declaration list, empty string when there are no arguments. -/
def build_args (args : List GArg) : Option String :=
  if args.isEmpty then some ""
  else
    (args.mapM (fun a => (type_to_gql a.type).map (fun t => "$" ++ a.name ++ ": " ++ t))).map
      (fun parts => "(" ++ String.intercalate ", " parts ++ ")")

/-- `build_arg_values` from `gnomad/schema2query.py` (lines 17-20): the
variable-binding list of the root selection. -/
def build_arg_values (args : List GArg) : String :=
  if args.isEmpty then ""
  else "(" ++ String.intercalate ", " (args.map (fun a => a.name ++ ": $" ++ a.name)) ++ ")"

/-- A field-map entry as produced by the schema analyzer and consumed by
the synthesizer: rendered type string, description, declared arguments and
an optional nested field map (the `"subfields"` key). -/
inductive FieldInfo where
  | mk (type : String) (description : String) (args : List GArg)
       (subfields : Option (List (String × FieldInfo)))
deriving Repr

/-- A field map: field names to field info, in schema declaration order. -/
abbrev FieldMap := List (String × FieldInfo)

/-- `subfields` accessor. -/
def FieldInfo.subfields : FieldInfo → Option FieldMap
  | .mk _ _ _ s => s

/-- `type` string accessor. -/
def FieldInfo.typeStr : FieldInfo → String
  | .mk t _ _ _ => t

/-- The indentation string `" " * indent`. -/
def padStr (indent : Nat) : String := String.mk (List.replicate indent ' ')

/-- The per-field lines of `build_fields` from `gnomad/schema2query.py`
(lines 33-42): a bare field name for a leaf, a nested brace block for a
field with (truthy) subfields. -/
def buildFieldLines : FieldMap → Nat → List String
  | [], _ => []
  | (fname, .mk _ _ _ (some sub)) :: rest, indent =>
      let pad := padStr indent
      let line :=
        if sub.isEmpty then pad ++ fname
        else pad ++ fname ++ " \x7b\n" ++
          String.intercalate "\n" (buildFieldLines sub (indent + 2)) ++
          "\n" ++ pad ++ "\x7d"
      line :: buildFieldLines rest indent
  | (fname, .mk _ _ _ Option.none) :: rest, indent =>
      (padStr indent ++ fname) :: buildFieldLines rest indent
termination_by fm _ => sizeOf fm
decreasing_by all_goals simp_wf <;> omega

/-- `build_fields` from `gnomad/schema2query.py`: joined field lines. -/
def build_fields (fields : FieldMap) (indent : Nat) : String :=
  String.intercalate "\n" (buildFieldLines fields indent)

/-! ## gnomad/schemas/schema_analyzer.py : type-graph walker

`SchemaAnalyzer` keeps a `types_map` built from the schema's type list
(later entries overwrite earlier ones, as in a Python dict build) and
derives a field map recursively.  The Python `visited` set is a single
mutable object shared by the whole top-level call; we embed it as an
explicit state component threaded through the recursion. -/

/-- `SchemaAnalyzer._extract_inner_type` (lines 179-195): the innermost
truthy type name under the wrapper chain, if any. -/
def extract_inner_type : TypeRef → Option String
  | .mk _ name ofType =>
      match name with
      | some n =>
          if n ≠ "" then some n
          else
            match ofType with
            | some t => extract_inner_type t
            | Option.none => Option.none
      | Option.none =>
          match ofType with
          | some t => extract_inner_type t
          | Option.none => Option.none

/-- The `kind or "unknown"` fallback of `SchemaAnalyzer._type_to_string`. -/
def kindOrUnknown : Option String → String
  | some k => if k ≠ "" then k else "unknown"
  | Option.none => "unknown"

/-- `SchemaAnalyzer._type_to_string` (lines 197-216): rendered type
string; a missing `ofType` under a wrapper renders as `"unknown"`. -/
def type_to_string : Option TypeRef → String
  | Option.none => "unknown"
  | some (.mk kind name ofType) =>
      if kind = some "NON_NULL" then type_to_string ofType ++ "!"
      else if kind = some "LIST" then "[" ++ type_to_string ofType ++ "]"
      else
        match name with
        | some n => if n ≠ "" then n else kindOrUnknown kind
        | Option.none => kindOrUnknown kind

/-- The scalar primitive names excluded from recursion (lines 142, 172). -/
def scalarTypeNames : List String := ["String", "Int", "Float", "Boolean", "ID"]

/-- The cycle-or-terminal test of line 142: scalar name, empty name, or
`None` (a falsy `type_name`). -/
def isScalarOrFalsyName : Option String → Bool
  | some n => scalarTypeNames.contains n || n == ""
  | Option.none => true

/-- The scalar test of line 172 applied to the extracted inner type:
`inner_type not in [...]` is false exactly on a scalar name (a `None`
inner type is not in the list, so it does recurse). -/
def innerIsScalar : Option String → Bool
  | some n => scalarTypeNames.contains n
  | Option.none => false

/-- `types_map.get(name)`: the `types_map` dict is built front to back,
later entries overwriting earlier ones, so lookup returns the LAST
matching type definition. -/
def typesMapGet (types : List TypeDef) (n : String) : Option TypeDef :=
  types.reverse.find? (fun td => td.name == n)

/-- All type names of the schema, as `visited`-set elements. -/
def allTypeNames (types : List TypeDef) : List (Option String) :=
  types.map (fun td => some td.name)

/-- Termination measure: how many schema type names are not yet visited. -/
def unvisitedCount (types : List TypeDef) (visited : List (Option String)) : Nat :=
  ((allTypeNames types).toFinset \ visited.toFinset).card

/-- Threading the shared mutable `visited` set: the set after a recursive
call is the returned set, which always contains the set before the call;
re-inserting the old elements makes that containment definitional, and
`mergeVisited_eq_of_subset` below shows it is the returned set itself. -/
def mergeVisited (v1 v2 : List (Option String)) : List (Option String) :=
  v1.foldl (fun acc y => List.insert y acc) v2

theorem mem_mergeVisited {x : Option String} (v1 v2 : List (Option String)) :
    x ∈ mergeVisited v1 v2 ↔ x ∈ v1 ∨ x ∈ v2 := by
  induction v1 generalizing v2 with
  | nil => simp [mergeVisited]
  | cons y t ih =>
      show x ∈ mergeVisited t (List.insert y v2) ↔ _
      rw [ih]
      simp [List.mem_insert_iff]
      tauto

theorem mergeVisited_eq_of_subset {v1 v2 : List (Option String)}
    (h : ∀ x ∈ v1, x ∈ v2) : mergeVisited v1 v2 = v2 := by
  induction v1 generalizing v2 with
  | nil => rfl
  | cons y t ih =>
      show mergeVisited t (List.insert y v2) = v2
      rw [List.insert_of_mem (h y (List.mem_cons_self y t))]
      exact ih (fun x hx => h x (List.mem_cons_of_mem y hx))

theorem unvisitedCount_le_of_subset (types : List TypeDef)
    {v1 v2 : List (Option String)} (h : ∀ x ∈ v1, x ∈ v2) :
    unvisitedCount types v2 ≤ unvisitedCount types v1 := by
  apply Finset.card_le_card
  apply Finset.sdiff_subset_sdiff (le_refl _)
  intro x hx
  rw [List.mem_toFinset] at hx ⊢
  exact h x hx

/-- `types_map.get(type_name)` with a possibly `None` `type_name`
(a recursive call passes the extracted inner type, which may be `None`;
no type is keyed by `None`). -/
def typesMapGetOpt (types : List TypeDef) : Option String → Option TypeDef
  | some n => typesMapGet types n
  | Option.none => Option.none

theorem typesMapGetOpt_mem_allTypeNames {types : List TypeDef}
    {tn : Option String} {td : TypeDef} (h : typesMapGetOpt types tn = some td) :
    tn ∈ allTypeNames types := by
  match tn with
  | Option.none => simp [typesMapGetOpt] at h
  | some n =>
      unfold typesMapGetOpt typesMapGet at h
      have hname := List.find?_some h
      have hmem := List.mem_of_find?_eq_some h
      rw [List.mem_reverse] at hmem
      simp only [beq_iff_eq] at hname
      simp only [allTypeNames, List.mem_map]
      exact ⟨td, hmem, by rw [hname]⟩

theorem unvisitedCount_insert_lt (types : List TypeDef)
    {tn : Option String} {visited : List (Option String)}
    (h1 : tn ∉ visited) (h2 : tn ∈ allTypeNames types) :
    unvisitedCount types (List.insert tn visited) < unvisitedCount types visited := by
  apply Finset.card_lt_card
  constructor
  · apply Finset.sdiff_subset_sdiff (le_refl _)
    intro x hx
    rw [List.mem_toFinset] at hx ⊢
    exact List.mem_insert_of_mem hx
  · intro hsub
    have htn : tn ∈ (allTypeNames types).toFinset \ visited.toFinset := by
      simp only [Finset.mem_sdiff, List.mem_toFinset]
      exact ⟨h2, h1⟩
    have habs := hsub htn
    simp only [Finset.mem_sdiff, List.mem_toFinset] at habs
    exact habs.2 (List.mem_insert_self tn visited)

mutual
/-- `SchemaAnalyzer.get_required_fields_for_type` (lines 119-177): cycle
check against the shared `visited` set, add the type name to the set,
terminal return for scalar or falsy names, soft empty return for a
missing type definition or missing/null field list, otherwise collect the
fields.  The second component is the `visited` set after the call (the
Python set is mutated in place). -/
def get_required_fields_for_type (types : List TypeDef) (tn : Option String)
    (visited : List (Option String)) : FieldMap × List (Option String) :=
  if htn : tn ∈ visited then ([], visited)
  else
    let visited1 := List.insert tn visited
    if isScalarOrFalsyName tn then ([], visited1)
    else
      match hlk : typesMapGetOpt types tn with
      | Option.none => ([], visited1)
      | some td =>
          match td.fields with
          | Option.none => ([], visited1)
          | some flds => collectFields types flds visited1
termination_by (unvisitedCount types visited, 0)
decreasing_by
  apply Prod.Lex.left
  exact unvisitedCount_insert_lt types htn (typesMapGetOpt_mem_allTypeNames hlk)

/-- The `for field in type_def["fields"]` loop of
`get_required_fields_for_type` (lines 157-177): record each field's
rendered type, description and arguments; recurse on a non-scalar inner
type with the shared `visited` set; attach the `"subfields"` key only
when the recursion returned a non-empty map. -/
def collectFields (types : List TypeDef) (flds : List GField)
    (visited : List (Option String)) : FieldMap × List (Option String) :=
  match flds with
  | [] => ([], visited)
  | field :: rest =>
      let inner := extract_inner_type field.type
      let info := type_to_string (some field.type)
      if innerIsScalar inner then
        let r := collectFields types rest visited
        ((field.name, .mk info field.description field.args Option.none) :: r.1, r.2)
      else
        let s := get_required_fields_for_type types inner visited
        let visited2 := mergeVisited visited s.2
        let subOpt := if s.1.isEmpty then Option.none else some s.1
        let r := collectFields types rest visited2
        ((field.name, .mk info field.description field.args subOpt) :: r.1, r.2)
termination_by (unvisitedCount types visited, flds.length + 1)
decreasing_by
  · apply Prod.Lex.right
    simp only [List.length_cons]
    omega
  · apply Prod.Lex.right
    simp only [List.length_cons]
    omega
  · rcases lt_or_eq_of_le (unvisitedCount_le_of_subset types
      (fun x hx => (mem_mergeVisited visited _).mpr (Or.inl hx))) with hlt | heq
    · exact Prod.Lex.left _ _ hlt
    · rw [heq]
      apply Prod.Lex.right
      simp only [List.length_cons]
      omega
end

/-- The shared `visited` set only grows: every element of the set before
a walker call is still in the set the call returns (both for the walker
entry point and for the field loop).  Proved by the functional induction
principle of the mutual recursion. -/
theorem visited_subset_both (types : List TypeDef) :
    (∀ (tn : Option String) (visited : List (Option String)),
        ∀ x ∈ visited, x ∈ (get_required_fields_for_type types tn visited).2) ∧
    (∀ (flds : List GField) (visited : List (Option String)),
        ∀ x ∈ visited, x ∈ (collectFields types flds visited).2) := by
  refine get_required_fields_for_type.mutual_induct types
    (fun tn visited => ∀ x ∈ visited, x ∈ (get_required_fields_for_type types tn visited).2)
    (fun flds visited => ∀ x ∈ visited, x ∈ (collectFields types flds visited).2)
    ?ca ?cb ?cc ?cd ?ce ?cf ?cg ?ch
  case ca =>
    intro tn visited htn x hx
    rw [get_required_fields_for_type.eq_def, dif_pos htn]
    exact hx
  case cb =>
    intro tn visited htn hsc x hx
    rw [get_required_fields_for_type.eq_def, dif_neg htn, if_pos hsc]
    exact List.mem_insert_of_mem hx
  case cc =>
    intro tn visited htn hsc hlk x hx
    rw [get_required_fields_for_type.eq_def, dif_neg htn, if_neg hsc]
    split
    · exact List.mem_insert_of_mem hx
    · next td heq =>
        rw [hlk] at heq
        cases heq
  case cd =>
    intro tn visited htn hsc td hlk hfl x hx
    rw [get_required_fields_for_type.eq_def, dif_neg htn, if_neg hsc]
    split
    · exact List.mem_insert_of_mem hx
    · next td2 heq =>
        rw [hlk] at heq
        injection heq with h
        subst h
        rw [hfl]
        exact List.mem_insert_of_mem hx
  case ce =>
    intro tn visited htn visited1 hsc td hlk flds hfl ih x hx
    rw [get_required_fields_for_type.eq_def, dif_neg htn, if_neg hsc]
    split
    · next heq =>
        rw [hlk] at heq
        cases heq
    · next td2 heq =>
        rw [hlk] at heq
        injection heq with h
        subst h
        rw [hfl]
        exact ih x (List.mem_insert_of_mem hx)
  case cf =>
    intro visited x hx
    rw [collectFields.eq_def]
    exact hx
  case cg =>
    intro visited field rest inner hsc ih x hx
    rw [collectFields.eq_def]
    simp only [hsc, if_true]
    exact ih x hx
  case ch =>
    intro visited field rest inner hne s visited2 ihA ihB ihRest x hx
    rw [collectFields.eq_def]
    simp only [hne, if_false, Bool.false_eq_true]
    exact ihRest x ((mem_mergeVisited _ _).mpr (Or.inl hx))

/-- A type name not yet visited is in the visited set the walker returns
(line 137: `visited.add(type_name)` runs before any early return). -/
theorem walker_adds_type_name (types : List TypeDef) (tn : Option String)
    (visited : List (Option String)) (htn : tn ∉ visited) :
    tn ∈ (get_required_fields_for_type types tn visited).2 := by
  rw [get_required_fields_for_type.eq_def, dif_neg htn]
  by_cases hsc : isScalarOrFalsyName tn
  · rw [if_pos hsc]
    exact List.mem_insert_self tn visited
  · rw [if_neg hsc]
    split
    · exact List.mem_insert_self tn visited
    · next td heq =>
        split
        · exact List.mem_insert_self tn visited
        · next flds hfl =>
            exact (visited_subset_both types).2 flds (List.insert tn visited) tn
              (List.mem_insert_self tn visited)

/-- The query-info record handed to `generate_query`: the declared
arguments and derived field map of one query. -/
structure QInfo where
  args : List GArg
  fields : FieldMap
deriving Repr

/-- `generate_query` from `gnomad/schema2query.py` (lines 44-50): render
the complete query document text.  `Option.none` models the crash
propagated from a malformed argument type. -/
def generate_query (query_name : String) (qinfo : QInfo) : Option String :=
  (build_args qinfo.args).map (fun arg_defs =>
    let arg_vals := build_arg_values qinfo.args
    let fields_str := build_fields qinfo.fields 4
    "query " ++ query_name ++ arg_defs ++ " \x7b\n    " ++ query_name ++ arg_vals ++
      " \x7b\n" ++ fields_str ++ "\n    \x7d\n\x7d\n")

/-! ## Concrete fixtures for the theorems -/

/-- An environment in which every query document exists and the transport
returns a fixed response. -/
def okEnv : Env :=
  { files := fun _ => some "QUERY_DOCUMENT"
  , execute := fun _ _ => .ok (.str "RESPONSE") }

/-- An environment whose transport echoes back, as its response, exactly
the variables dictionary it was handed — it makes the dispatched variable
set observable. -/
def echoEnv : Env :=
  { files := fun _ => some "QUERY_DOCUMENT"
  , execute := fun _ vs => .ok (.dict vs) }

/-- A schema in which the composite type `A` is reachable under the two
sibling fields `a` and `b` of the root type. -/
def demoSiblingTypes : List TypeDef :=
  [ TypeDef.mk "Root" (some
      [ GField.mk "a" (TypeRef.mk (some "OBJECT") (some "A") Option.none) "" []
      , GField.mk "b" (TypeRef.mk (some "OBJECT") (some "A") Option.none) "" [] ])
  , TypeDef.mk "A" (some
      [ GField.mk "x" (TypeRef.mk (some "SCALAR") (some "String") Option.none) "" [] ]) ]

/-- A schema with a two-type cycle: `A.b : B` and `B.a : A`. -/
def cycleTypes : List TypeDef :=
  [ TypeDef.mk "A" (some [ GField.mk "b" (TypeRef.mk (some "OBJECT") (some "B") Option.none) "" [] ])
  , TypeDef.mk "B" (some [ GField.mk "a" (TypeRef.mk (some "OBJECT") (some "A") Option.none) "" [] ]) ]

/-! ## Claim theorems -/

/-- C1: the dispatcher computes the backfilled `dataset` and
`reference_genome` defaults but hands the ORIGINAL variables dict to the
transport (line 191 passes `variables`, not the completed locals).  With
the echoing transport, a call that omits `dataset` resolves to v3,
backfills `gnomad_r3` locally, yet the transport receives — and here
echoes back — only the two caller-supplied entries, with no `dataset` or
backfilled value present.  This contradicts the claim (and the module's
own docstring) that the completed variable set is executed. -/
theorem c1_transport_gets_original_variables :
    run_query echoEnv "variant"
      [("variantId", .str "12-112241766-G-A"), ("reference_genome", .str "GRCh38")] =
      .ok (.dict [("variantId", .str "12-112241766-G-A"), ("reference_genome", .str "GRCh38")]) := by
  rfl

/-- C2 counterexample: caller-supplied `dataset = gnomad_r4` (implying v4)
together with `reference_genome = GRCh37` (implying v2) is NOT rejected:
`detect_version` gives the dataset priority both times, so the re-check
compares v4 with v4 and the call proceeds to a successful execution
instead of the hard failure the claim asserts. -/
theorem c2_contradictory_hints_not_rejected :
    run_query okEnv "variant"
      [ ("dataset", .str "gnomad_r4"), ("reference_genome", .str "GRCh37")
      , ("variantId", .str "12-112241766-G-A") ] = .ok (.str "RESPONSE") := by
  rfl

/-- C2 amended: the consistency re-check raises the Inconsistent-version
`ValueError` exactly when the originally resolved version differs from
`detect_version` applied to the completed `(dataset, reference_genome)`
pair; since `detect_version` gives the dataset priority, a contradictory
reference genome next to a recognised dataset never trips it — what does
trip it is, e.g., an explicit version hint contradicting the supplied
dataset, as in the first conjunct; the second conjunct shows the
contradictory dataset/genome pair dispatching successfully. -/
theorem c2_consistency_recheck_amended :
    (∀ (env : Env) (d w : String),
        ALL_DATASET_TO_VERSION.lookup d = some w → w ≠ "v2" →
        run_query env "variant"
          [ ("version", .str "v2"), ("dataset", .str d), ("reference_genome", .str "GRCh37") ] =
          .error (.valueError ("Inconsistent version: got v2, expected " ++ w))) ∧
    run_query okEnv "variant"
      [ ("dataset", .str "gnomad_r4"), ("reference_genome", .str "GRCh37")
      , ("variantId", .str "12-112241766-G-A") ] = .ok (.str "RESPONSE") := by
  constructor
  · intro env d w hlk hne
    have hdne : d ≠ "" := by
      intro h0
      subst h0
      simp [ALL_DATASET_TO_VERSION, List.lookup] at hlk
    have hde : d.isEmpty = false := by
      rw [Bool.eq_false_iff]
      intro h
      exact hdne ((String.isEmpty_iff d).mp h)
    have hd : truthyGet
        [ ("version", PyVal.str "v2"), ("dataset", PyVal.str d)
        , ("reference_genome", PyVal.str "GRCh37") ] "dataset" = some (.str d) := by
      simp [truthyGet, varGet, List.lookup, PyVal.truthy, hde]
    have hdet : detect_version (some (.str d)) (some (.str "GRCh37")) = .ok w := by
      simp [detect_version, PyVal.truthy, hde, pyStrKeyLookup, hlk]
    have hbeq : PyVal.beq (.str "v2") (.str w) = false := by
      simp [PyVal.beq]
      exact fun h => hne h.symm
    simp only [run_query, resolveVersionVar, resolveDatasetVar, resolveGenomeVar, hd]
    have hv : truthyGet
        [ ("version", PyVal.str "v2"), ("dataset", PyVal.str d)
        , ("reference_genome", PyVal.str "GRCh37") ] "version" = some (.str "v2") := rfl
    have hr : truthyGet
        [ ("version", PyVal.str "v2"), ("dataset", PyVal.str d)
        , ("reference_genome", PyVal.str "GRCh37") ] "reference_genome" =
        some (.str "GRCh37") := rfl
    simp only [hv, hr, versionBranch]
    simp only [show PyVal.beq (.str "v2") (.str "v2") = true from rfl, if_true]
    rw [if_pos (show "variant" ∈ supportedQueriesFor "v2" by decide)]
    rw [hdet]
    simp only [hbeq, Bool.false_eq_true, if_false, inconsistentMsg, PyVal.toPyString]
    rfl
  · rfl

/-- C2 witness: the amended theorem at `d = gnomad_r4`, whose table
version v4 contradicts the explicit v2 hint. -/
theorem c2_consistency_recheck_amended_witness :
    run_query okEnv "variant"
      [ ("version", .str "v2"), ("dataset", .str "gnomad_r4"), ("reference_genome", .str "GRCh37") ] =
      .error (.valueError ("Inconsistent version: got v2, expected " ++ "v4")) :=
  c2_consistency_recheck_amended.1 okEnv "gnomad_r4" "v4" rfl (by simp)

/-- C3 counterexample: in `demoSiblingTypes` the composite type `A` is
reachable under the two sibling fields `a` and `b` of one top-level call,
yet only the first sibling is expanded with subfields: the shared
`visited` set already contains `A` when the second sibling recurses, so
`b` carries no `subfields` entry — refuting the claim that a type
reachable under two sibling branches is expanded in both. -/
theorem c3_sibling_branch_not_expanded :
    ((get_required_fields_for_type demoSiblingTypes (some "Root") []).1.lookup "a"
        = some (.mk "A" "" [] (some [("x", .mk "String" "" [] Option.none)]))) ∧
    ((get_required_fields_for_type demoSiblingTypes (some "Root") []).1.lookup "b"
        = some (.mk "A" "" [] Option.none)) := by
  have h : get_required_fields_for_type demoSiblingTypes (some "Root") [] =
      ( [ ("a", .mk "A" "" [] (some [("x", .mk "String" "" [] Option.none)]))
        , ("b", .mk "A" "" [] Option.none) ]
      , [some "A", some "Root"] ) := by
    simp [get_required_fields_for_type, collectFields, typesMapGetOpt, typesMapGet,
      isScalarOrFalsyName, innerIsScalar, extract_inner_type, type_to_string,
      mergeVisited, scalarTypeNames, demoSiblingTypes, List.insert, kindOrUnknown,
      List.find?, allTypeNames]
  rw [h]
  constructor <;> rfl

/-- C3 amended: pruning is global to the whole top-level call, not scoped
to the current descent path: a type already in the shared `visited` set is
cut short immediately (first conjunct), the set only grows and the
expanded type name is added to it (second and third conjuncts), so a
composite type reachable under two sibling branches is expanded only in
the first branch encountered (fourth conjunct, concrete); the global
no-revisit discipline still implies that no type name appears twice on
any single root-to-leaf path. -/
theorem c3_global_pruning_amended :
    (∀ (types : List TypeDef) (tn : Option String) (visited : List (Option String)),
        tn ∈ visited → get_required_fields_for_type types tn visited = ([], visited)) ∧
    (∀ (types : List TypeDef) (tn : Option String) (visited : List (Option String)),
        ∀ x ∈ visited, x ∈ (get_required_fields_for_type types tn visited).2) ∧
    (∀ (types : List TypeDef) (tn : Option String) (visited : List (Option String)),
        tn ∉ visited → tn ∈ (get_required_fields_for_type types tn visited).2) ∧
    get_required_fields_for_type demoSiblingTypes (some "Root") [] =
      ( [ ("a", .mk "A" "" [] (some [("x", .mk "String" "" [] Option.none)]))
        , ("b", .mk "A" "" [] Option.none) ]
      , [some "A", some "Root"] ) := by
  refine ⟨?p1, ?p2, ?p3, ?p4⟩
  case p1 =>
    intro types tn visited htn
    rw [get_required_fields_for_type.eq_def, dif_pos htn]
  case p2 =>
    intro types tn visited
    exact (visited_subset_both types).1 tn visited
  case p3 =>
    intro types tn visited htn
    exact walker_adds_type_name types tn visited htn
  case p4 =>
    simp [get_required_fields_for_type, collectFields, typesMapGetOpt, typesMapGet,
      isScalarOrFalsyName, innerIsScalar, extract_inner_type, type_to_string,
      mergeVisited, scalarTypeNames, demoSiblingTypes, List.insert, kindOrUnknown,
      List.find?, allTypeNames]

/-- C3 amended witness: the pruning facts at a concrete unvisited type. -/
theorem c3_global_pruning_amended_witness :
    (some "Root" : Option String) ∉ ([] : List (Option String)) ∧
    (some "Root" : Option String) ∈
      (get_required_fields_for_type demoSiblingTypes (some "Root") []).2 :=
  ⟨by simp, c3_global_pruning_amended.2.2.1 demoSiblingTypes (some "Root") [] (by simp)⟩

/-- C4: `run_query_with_metadata` is a total function — the embedding
returns an `Envelope` for every environment, query name and variables
dict, so no exception escapes and one record's failure cannot abort
sibling calls of a batch; `request_variables` echoes the caller's dict
exactly (the copy is taken before dispatch and the dispatcher never
mutates it), the endpoint and query name are recorded, and the response
is the decoded result on success or the `error` dict built from the
raised exception's message on failure. -/
theorem c4_envelope_isolation (env : Env) (query_name : String) (vs : VarMap) :
    (run_query_with_metadata env query_name vs).request_variables = vs ∧
    (run_query_with_metadata env query_name vs).endpoint = GNOMAD_API_URL ∧
    (run_query_with_metadata env query_name vs).request_query = query_name ∧
    (∀ r, run_query env query_name vs = .ok r →
        (run_query_with_metadata env query_name vs).response = r) ∧
    (∀ e, run_query env query_name vs = .error e →
        (run_query_with_metadata env query_name vs).response = errDict (Exc.message e)) := by
  refine ⟨rfl, rfl, rfl, ?hok, ?herr⟩
  case hok =>
    intro r h
    simp [run_query_with_metadata, h]
  case herr =>
    intro e h
    simp [run_query_with_metadata, h]

/-- C4 witness: the envelope facts at a concrete successful dispatch. -/
theorem c4_envelope_isolation_witness :
    (run_query_with_metadata okEnv "meta" [("dataset", PyVal.str "gnomad_r4")]).request_variables =
      [("dataset", PyVal.str "gnomad_r4")] ∧
    (run_query_with_metadata okEnv "meta" [("dataset", PyVal.str "gnomad_r4")]).response =
      .str "RESPONSE" :=
  ⟨(c4_envelope_isolation okEnv "meta" [("dataset", PyVal.str "gnomad_r4")]).1,
   (c4_envelope_isolation okEnv "meta" [("dataset", PyVal.str "gnomad_r4")]).2.2.2.1
     (.str "RESPONSE") rfl⟩

/-- C5: for every version row of `DATASET_MAP` (v2, v3, v4, resolved here
from that version's default dataset) and every query name, an unsupported
query name makes `run_query` raise — in every environment, so before any
file or transport access — a `ValueError` whose message names the query,
the version, and the full supported list of that version; a supported
query name passes the check and the dispatch completes. -/
theorem c5_unsupported_query_validation (v dflt q : String)
    (hv : DATASET_MAP.lookup v = some dflt) :
    (q ∉ supportedQueriesFor v →
      ∀ env : Env, run_query env q [("dataset", .str dflt)] =
        .error (.valueError (unsupportedMsg q v (supportedQueriesFor v)))) ∧
    (q ∈ supportedQueriesFor v →
      run_query okEnv q [("dataset", .str dflt)] = .ok (.str "RESPONSE")) := by
  have hcases : (v = "v2" ∧ dflt = "gnomad_r2_1") ∨ (v = "v3" ∧ dflt = "gnomad_r3") ∨
      (v = "v4" ∧ dflt = "gnomad_r4") := by
    by_cases h2 : v = "v2"
    · subst h2
      simp [DATASET_MAP, List.lookup] at hv
      exact Or.inl ⟨rfl, hv.symm⟩
    · by_cases h3 : v = "v3"
      · subst h3
        simp [DATASET_MAP, List.lookup] at hv
        exact Or.inr (Or.inl ⟨rfl, hv.symm⟩)
      · by_cases h4 : v = "v4"
        · subst h4
          simp [DATASET_MAP, List.lookup] at hv
          exact Or.inr (Or.inr ⟨rfl, hv.symm⟩)
        · have e2 : (v == "v2") = false := beq_eq_false_iff_ne.mpr h2
          have e3 : (v == "v3") = false := beq_eq_false_iff_ne.mpr h3
          have e4 : (v == "v4") = false := beq_eq_false_iff_ne.mpr h4
          simp [DATASET_MAP, List.lookup, e2, e3, e4] at hv
  rcases hcases with ⟨hveq, hdeq⟩ | ⟨hveq, hdeq⟩ | ⟨hveq, hdeq⟩ <;> subst hveq <;> subst hdeq <;>
    exact ⟨fun hq env => by
        simp +decide [run_query, resolveVersionVar, resolveDatasetVar, resolveGenomeVar,
          truthyGet, varGet, List.lookup, detect_version, pyStrKeyLookup, refGenomeScan,
          PyVal.truthy, PyVal.beq, versionBranch, REF_GENOME_MAP, ALL_DATASET_TO_VERSION,
          DATASET_MAP, okEnv, hq],
      fun hq => by
        simp +decide [run_query, resolveVersionVar, resolveDatasetVar, resolveGenomeVar,
          truthyGet, varGet, List.lookup, detect_version, pyStrKeyLookup, refGenomeScan,
          PyVal.truthy, PyVal.beq, versionBranch, REF_GENOME_MAP, ALL_DATASET_TO_VERSION,
          DATASET_MAP, okEnv, hq]⟩

/-- C5 witness: `region` is rejected under v2 with the enumerating
message (the claim's own example) and `variant` passes under v2. -/
theorem c5_unsupported_query_validation_witness :
    ("region" ∉ supportedQueriesFor "v2" ∧
      run_query okEnv "region" [("dataset", PyVal.str "gnomad_r2_1")] =
        .error (.valueError (unsupportedMsg "region" "v2" (supportedQueriesFor "v2")))) ∧
    ("variant" ∈ supportedQueriesFor "v2" ∧
      run_query okEnv "variant" [("dataset", PyVal.str "gnomad_r2_1")] = .ok (.str "RESPONSE")) :=
  ⟨⟨by decide, (c5_unsupported_query_validation "v2" "gnomad_r2_1" "region" rfl).1 (by decide) okEnv⟩,
   ⟨by decide, (c5_unsupported_query_validation "v2" "gnomad_r2_1" "variant" rfl).2 (by decide)⟩⟩

/-- C6: the fixed resolution priority — a (truthy) explicit `version`
value in the variables wins outright; otherwise a dataset found in
`ALL_DATASET_TO_VERSION` decides (so `gnomad_sv_r4` gives v4 whatever the
reference genome says); otherwise the reference genome is matched against
`REF_GENOME_MAP` in declaration order, so `GRCh37` alone gives v2 and
`GRCh38` alone gives v3 (never v4); and an unknown dataset with no
reference genome raises the `ValueError` of `detect_version`. -/
theorem c6_version_resolution_priority :
    (∀ (vs : VarMap) (v : PyVal), truthyGet vs "version" = some v →
        resolveVersionVar vs = .inr v) ∧
    (∀ rg : Option PyVal, detect_version (some (.str "gnomad_sv_r4")) rg = .ok "v4") ∧
    detect_version Option.none (some (.str "GRCh37")) = .ok "v2" ∧
    detect_version Option.none (some (.str "GRCh38")) = .ok "v3" ∧
    detect_version (some (.str "unknown_ds")) Option.none =
      .error (.valueError (cannotDetectMsg (some (.str "unknown_ds")) Option.none)) := by
  refine ⟨?hint, fun rg => rfl, rfl, rfl, rfl⟩
  case hint =>
    intro vs v h
    simp [resolveVersionVar, h]

/-- C6 witness: an explicit hint wins over a contradicting dataset. -/
theorem c6_version_resolution_priority_witness :
    resolveVersionVar [("version", PyVal.str "v4"), ("dataset", PyVal.str "gnomad_r2_1")] =
      .inr (.str "v4") :=
  c6_version_resolution_priority.1
    [("version", PyVal.str "v4"), ("dataset", PyVal.str "gnomad_r2_1")] (.str "v4") rfl

/-- C7: on the two-type cycle `A.b : B`, `B.a : A` the walker — a total
Lean function, so the modelled recursion terminates — returns the finite
field map in which A's expansion contains B's fields once, and the nested
occurrence of A inside B is cut short with no `subfields` entry. -/
theorem c7_cycle_termination :
    get_required_fields_for_type cycleTypes (some "A") [] =
      ( [ ("b", .mk "B" "" [] (some [("a", .mk "A" "" [] Option.none)])) ]
      , [some "B", some "A"] ) := by
  simp [get_required_fields_for_type, collectFields, typesMapGetOpt, typesMapGet,
    isScalarOrFalsyName, innerIsScalar, extract_inner_type, type_to_string,
    mergeVisited, scalarTypeNames, cycleTypes, List.insert, kindOrUnknown,
    List.find?, allTypeNames]

/-- C8: `generate_query` is a pure function, so two calls with identical
query name and query info yield byte-identical text; `type_to_gql`
renders a NON_NULL-wrapped LIST-wrapped named type `T` exactly as
`[T]!`, and in general a NON_NULL wrapper appends a trailing bang, a
LIST wrapper adds surrounding brackets, and a named type with a
non-wrapper kind renders as its bare name — mirroring the descriptor's
wrapping order. -/
theorem c8_synthesis_deterministic_rendering :
    (∀ (q : String) (i : QInfo), generate_query q i = generate_query q i) ∧
    type_to_gql (.mk (some "NON_NULL") Option.none (some (.mk (some "LIST") Option.none
      (some (.mk Option.none (some "T") Option.none))))) = some "[T]!" ∧
    (∀ (t : TypeRef) (s : String) (nm : Option String), type_to_gql t = some s →
        type_to_gql (.mk (some "NON_NULL") nm (some t)) = some (s ++ "!")) ∧
    (∀ (t : TypeRef) (s : String) (nm : Option String), type_to_gql t = some s →
        type_to_gql (.mk (some "LIST") nm (some t)) = some ("[" ++ s ++ "]")) ∧
    (∀ (k : Option String) (n : String) (o : Option TypeRef),
        n ≠ "" → k ≠ some "NON_NULL" → k ≠ some "LIST" →
        type_to_gql (.mk k (some n) o) = some n) := by
  refine ⟨fun q i => rfl, rfl, ?hnn, ?hls, ?hname⟩
  case hnn =>
    intro t s nm h
    simp [type_to_gql, h]
  case hls =>
    intro t s nm h
    simp [type_to_gql, h]
  case hname =>
    intro k n o hn h1 h2
    rw [type_to_gql.eq_def]
    simp [h1, h2, hn]

/-- C8 witness: the NON_NULL rule applied to the named type `T`. -/
theorem c8_synthesis_deterministic_rendering_witness :
    type_to_gql (.mk (some "NON_NULL") Option.none
      (some (.mk Option.none (some "T") Option.none))) = some ("T" ++ "!") :=
  c8_synthesis_deterministic_rendering.2.2.1
    (.mk Option.none (some "T") Option.none) "T" Option.none rfl

/-- C9: the liftover tool raises its validation `ValueError`
synchronously — in every environment, hence before any dispatch — when
both identifiers are supplied, when neither is, when the source
identifier comes with a reference genome other than GRCh37, or when the
lifted-over identifier comes with a reference genome other than GRCh38;
and with exactly one identifier and its matching build it reaches the
dispatcher with the assembled variables. -/
theorem c9_liftover_shape_validation (env : Env) (rg : String)
    (src lift : Option String) :
    (optStrTruthy src = true → optStrTruthy lift = true →
      get_variant_liftover env rg src lift =
        .error (.valueError "Only one of source_variant_id or liftover_variant_id must be provided.")) ∧
    (optStrTruthy src = false → optStrTruthy lift = false →
      get_variant_liftover env rg src lift =
        .error (.valueError "Either source_variant_id or liftover_variant_id must be provided.")) ∧
    (optStrTruthy src = true → optStrTruthy lift = false → rg ≠ "GRCh37" →
      get_variant_liftover env rg src lift =
        .error (.valueError "Source variant ID must be on GRCh37.")) ∧
    (optStrTruthy src = false → optStrTruthy lift = true → rg ≠ "GRCh38" →
      get_variant_liftover env rg src lift =
        .error (.valueError "Lifted over variant ID must be on GRCh38.")) ∧
    (optStrTruthy src = true → optStrTruthy lift = false → rg = "GRCh37" →
      get_variant_liftover env rg src lift =
        .ok (run_query_with_metadata env "liftover"
          [ ("dataset", .str "gnomad_r2_1"), ("reference_genome", .str rg)
          , ("source_variant_id", optStrPy src), ("liftover_variant_id", optStrPy lift) ])) ∧
    (optStrTruthy src = false → optStrTruthy lift = true → rg = "GRCh38" →
      get_variant_liftover env rg src lift =
        .ok (run_query_with_metadata env "liftover"
          [ ("dataset", .str "gnomad_r2_1"), ("reference_genome", .str rg)
          , ("source_variant_id", optStrPy src), ("liftover_variant_id", optStrPy lift) ])) := by
  refine ⟨?hboth, ?hneither, ?hsrcrg, ?hliftrg, ?hsrcok, ?hliftok⟩
  case hboth =>
    intro hs hl
    simp [get_variant_liftover, hs, hl]
  case hneither =>
    intro hs hl
    simp [get_variant_liftover, hs, hl]
  case hsrcrg =>
    intro hs hl hrg
    simp [get_variant_liftover, hs, hl, hrg]
  case hliftrg =>
    intro hs hl hrg
    simp [get_variant_liftover, hs, hl, hrg]
  case hsrcok =>
    intro hs hl hrg
    simp [get_variant_liftover, hs, hl, hrg]
  case hliftok =>
    intro hs hl hrg
    simp [get_variant_liftover, hs, hl, hrg]

/-- C9 witness: both identifiers supplied is rejected before dispatch. -/
theorem c9_liftover_shape_validation_witness :
    get_variant_liftover okEnv "GRCh38" (some "12-112241766-G-A") (some "12-111803962-G-A") =
      .error (.valueError "Only one of source_variant_id or liftover_variant_id must be provided.") :=
  (c9_liftover_shape_validation okEnv "GRCh38"
    (some "12-112241766-G-A") (some "12-111803962-G-A")).1 rfl rfl

/-- C10: an explicit truthy `version` outside v2/v3/v4 with no `dataset`
key makes the dataset-backfill lookup `DATASET_MAP[version]` raise a
`KeyError`, which the surrounding `except ValueError` cannot catch: the
call fails with the raw `KeyError` — not the structured soft-error dict
and not the descriptive Unknown-gnomAD-version `ValueError`. -/
theorem c10_invalid_version_uncaught_keyerror (env : Env) (q : String) (vs : VarMap)
    (v : String) (h1 : varGet vs "version" = some (.str v)) (h2 : v ≠ "")
    (h3 : v ∉ (["v2", "v3", "v4"] : List String)) (h4 : varGet vs "dataset" = Option.none) :
    run_query env q vs = .error (.keyError (.str v)) := by
  have hde : v.isEmpty = false := by
    rw [Bool.eq_false_iff]
    intro h
    exact h2 ((String.isEmpty_iff v).mp h)
  have e2 : (v == "v2") = false := beq_eq_false_iff_ne.mpr (fun h => h3 (by rw [h]; simp))
  have e3 : (v == "v3") = false := beq_eq_false_iff_ne.mpr (fun h => h3 (by rw [h]; simp))
  have e4 : (v == "v4") = false := beq_eq_false_iff_ne.mpr (fun h => h3 (by rw [h]; simp))
  simp [run_query, resolveVersionVar, resolveDatasetVar, truthyGet, h1, h4,
    PyVal.truthy, hde, pyStrKeyLookup, DATASET_MAP, List.lookup, e2, e3, e4]

/-- C10 witness: `version = v5` with no dataset raises the KeyError. -/
theorem c10_invalid_version_uncaught_keyerror_witness :
    run_query okEnv "meta" [("version", PyVal.str "v5")] = .error (.keyError (.str "v5")) :=
  c10_invalid_version_uncaught_keyerror okEnv "meta" [("version", PyVal.str "v5")] "v5"
    rfl (by decide) (by decide) rfl

end Gnomad
